import Mathlib

/-
Shallow embedding of src/models/poisson_calculator.py (class PoissonCalculator).

Conventions of the embedding:
* Python floats are modelled by exact arithmetic: ℚ for the stored engine
  state, strengths and expectancies, and ℝ for the Poisson probability layer
  (which needs the exponential function).
* Python exceptions (ValueError, ZeroDivisionError) are modelled by
  Except String results, or by an (state, Option String) pair where the
  partially mutated state on error matters.
* The validation guards in the source are Python truthiness tests of the form
  "if not all([...])" over Optional[float] fields: both None and 0.0 are falsy
  there.  This is modelled by the predicate truthy below.
* The pandas DataFrame formatting of generate_market_analysis is presentation
  only and is not modelled; the market analysis result is the list of
  per-threshold market records the DataFrame is built from.
-/

/-- State of the PoissonCalculator class: the fields set in __init__,
all initially None (modelled as Option ℚ, none). -/
structure PoissonCalculator where
  home_avg_goals_for : Option ℚ
  home_avg_goals_against : Option ℚ
  away_avg_goals_for : Option ℚ
  away_avg_goals_against : Option ℚ
  league_avg_goals : Option ℚ
  using_detailed_averages : Bool
  league_home_goals_for : Option ℚ
  league_home_goals_against : Option ℚ
  league_away_goals_for : Option ℚ
  league_away_goals_against : Option ℚ
  home_attack_strength : Option ℚ
  home_defense_strength : Option ℚ
  away_attack_strength : Option ℚ
  away_defense_strength : Option ℚ
deriving DecidableEq

/-- __init__: every numeric field None, using_detailed_averages False. -/
def init_calculator : PoissonCalculator where
  home_avg_goals_for := none
  home_avg_goals_against := none
  away_avg_goals_for := none
  away_avg_goals_against := none
  league_avg_goals := none
  using_detailed_averages := false
  league_home_goals_for := none
  league_home_goals_against := none
  league_away_goals_for := none
  league_away_goals_against := none
  home_attack_strength := none
  home_defense_strength := none
  away_attack_strength := none
  away_defense_strength := none

/-- Python truthiness of an Optional[float]: None and 0.0 are falsy.
This is the element test used by the all([...]) validation guards. -/
def truthy (o : Option ℚ) : Bool :=
  match o with
  | none => false
  | some v => decide (v ≠ 0)

/-- set_team_averages: stores the five averages, simple mode. -/
def set_team_averages (s : PoissonCalculator)
    (home_goals_for home_goals_against away_goals_for away_goals_against
     league_avg : ℚ) : PoissonCalculator :=
  { s with
    home_avg_goals_for := some home_goals_for
    home_avg_goals_against := some home_goals_against
    away_avg_goals_for := some away_goals_for
    away_avg_goals_against := some away_goals_against
    league_avg_goals := some league_avg
    using_detailed_averages := false }

/-- set_team_averages_detailed: stores the four team averages and the split
league baseline, deriving home-conceding = away-scoring and vice versa. -/
def set_team_averages_detailed (s : PoissonCalculator)
    (home_goals_for home_goals_against away_goals_for away_goals_against
     league_home_for league_away_for : ℚ) : PoissonCalculator :=
  { s with
    home_avg_goals_for := some home_goals_for
    home_avg_goals_against := some home_goals_against
    away_avg_goals_for := some away_goals_for
    away_avg_goals_against := some away_goals_against
    league_home_goals_for := some league_home_for
    league_away_goals_for := some league_away_for
    league_home_goals_against := some league_away_for
    league_away_goals_against := some league_home_for
    using_detailed_averages := true }

/-- set_team_from_totals: divides totals by games played, assignment by
assignment in source order; a zero divisor raises ZeroDivisionError at that
line, leaving the fields assigned by earlier lines already overwritten.
Returns the (possibly partially mutated) state and the error, if any. -/
def set_team_from_totals (s : PoissonCalculator)
    (home_games home_goals_scored home_goals_conceded
     away_games away_goals_scored away_goals_conceded league_avg : ℚ) :
    PoissonCalculator × Option String :=
  if home_games = 0 then
    (s, some "ZeroDivisionError: division by zero")
  else
    let s1 := { s with
      home_avg_goals_for := some (home_goals_scored / home_games)
      home_avg_goals_against := some (home_goals_conceded / home_games) }
    if away_games = 0 then
      (s1, some "ZeroDivisionError: division by zero")
    else
      ({ s1 with
        away_avg_goals_for := some (away_goals_scored / away_games)
        away_avg_goals_against := some (away_goals_conceded / away_games)
        league_avg_goals := some league_avg
        using_detailed_averages := false }, none)

/-- set_team_from_totals_detailed: same divisions in the same order, then the
detailed league baseline fields. -/
def set_team_from_totals_detailed (s : PoissonCalculator)
    (home_games home_goals_scored home_goals_conceded
     away_games away_goals_scored away_goals_conceded
     league_home_for league_away_for : ℚ) :
    PoissonCalculator × Option String :=
  if home_games = 0 then
    (s, some "ZeroDivisionError: division by zero")
  else
    let s1 := { s with
      home_avg_goals_for := some (home_goals_scored / home_games)
      home_avg_goals_against := some (home_goals_conceded / home_games) }
    if away_games = 0 then
      (s1, some "ZeroDivisionError: division by zero")
    else
      ({ s1 with
        away_avg_goals_for := some (away_goals_scored / away_games)
        away_avg_goals_against := some (away_goals_conceded / away_games)
        league_home_goals_for := some league_home_for
        league_away_goals_for := some league_away_for
        league_home_goals_against := some league_away_for
        league_away_goals_against := some league_home_for
        using_detailed_averages := true }, none)

/-- calculate_strengths: validates the required averages with Python
truthiness (not all([...]) raises ValueError), then stores the four strength
ratios.  Detailed mode divides by the split league baseline, simple mode by
the scalar league average. -/
def calculate_strengths (s : PoissonCalculator) :
    Except String PoissonCalculator :=
  if s.using_detailed_averages then
    if !([s.home_avg_goals_for, s.home_avg_goals_against,
          s.away_avg_goals_for, s.away_avg_goals_against,
          s.league_home_goals_for, s.league_home_goals_against,
          s.league_away_goals_for, s.league_away_goals_against].all truthy) then
      Except.error "Team and detailed league averages must be set before calculating strengths"
    else
      Except.ok { s with
        home_attack_strength :=
          some (s.home_avg_goals_for.getD 0 / s.league_home_goals_for.getD 0)
        home_defense_strength :=
          some (s.home_avg_goals_against.getD 0 / s.league_away_goals_for.getD 0)
        away_attack_strength :=
          some (s.away_avg_goals_for.getD 0 / s.league_away_goals_for.getD 0)
        away_defense_strength :=
          some (s.away_avg_goals_against.getD 0 / s.league_home_goals_for.getD 0) }
  else
    if !([s.home_avg_goals_for, s.home_avg_goals_against,
          s.away_avg_goals_for, s.away_avg_goals_against,
          s.league_avg_goals].all truthy) then
      Except.error "Team averages must be set before calculating strengths"
    else
      Except.ok { s with
        home_attack_strength :=
          some (s.home_avg_goals_for.getD 0 / s.league_avg_goals.getD 0)
        home_defense_strength :=
          some (s.home_avg_goals_against.getD 0 / s.league_avg_goals.getD 0)
        away_attack_strength :=
          some (s.away_avg_goals_for.getD 0 / s.league_avg_goals.getD 0)
        away_defense_strength :=
          some (s.away_avg_goals_against.getD 0 / s.league_avg_goals.getD 0) }

/-- _calculate_goal_expectancy: validates the four strengths with Python
truthiness, then returns (home_goal_expectancy, away_goal_expectancy)
using the league baseline of the active mode. -/
def calculate_goal_expectancy (s : PoissonCalculator) :
    Except String (ℚ × ℚ) :=
  if !([s.home_attack_strength, s.home_defense_strength,
        s.away_attack_strength, s.away_defense_strength].all truthy) then
    Except.error "Strengths must be calculated before goal expectancy"
  else if s.using_detailed_averages then
    Except.ok
      (s.home_attack_strength.getD 0 * s.away_defense_strength.getD 0 *
         s.league_home_goals_for.getD 0,
       s.away_attack_strength.getD 0 * s.home_defense_strength.getD 0 *
         s.league_away_goals_for.getD 0)
  else
    Except.ok
      (s.home_attack_strength.getD 0 * s.away_defense_strength.getD 0 *
         s.league_avg_goals.getD 0,
       s.away_attack_strength.getD 0 * s.home_defense_strength.getD 0 *
         s.league_avg_goals.getD 0)

/-- The calculate_strengths-then-goal-expectancy pipeline (the order the
orchestrating callers run the two steps in). -/
def expectancy_of (s : PoissonCalculator) : Except String (ℚ × ℚ) :=
  match calculate_strengths s with
  | Except.error e => Except.error e
  | Except.ok s2 => calculate_goal_expectancy s2

/-- _poisson_pmf: (lam ** k) * exp(-lam) / factorial(k). -/
noncomputable def poisson_pmf (k : ℕ) (lam : ℝ) : ℝ :=
  lam ^ k * Real.exp (-lam) / (Nat.factorial k : ℝ)

/-- _generate_scoreline_probabilities: the (max_goals+1) × (max_goals+1)
matrix with cell [home][away] = pmf(home, home_expectancy) *
pmf(away, away_expectancy).  The source's default for max_goals is 8. -/
noncomputable def generate_scoreline_probabilities
    (home_expectancy away_expectancy : ℝ) (max_goals : ℕ) :
    Fin (max_goals + 1) → Fin (max_goals + 1) → ℝ :=
  fun home_goals away_goals =>
    poisson_pmf home_goals home_expectancy *
    poisson_pmf away_goals away_expectancy

/-- The threshold list of _calculate_over_under_probabilities. -/
noncomputable def thresholds : List ℝ := [0.5, 1.5, 2.5, 3.5]

/-- The UNDER accumulation loop: sum of the cells with
home_goals + away_goals <= threshold. -/
noncomputable def under_prob {n : ℕ} (M : Fin n → Fin n → ℝ) (t : ℝ) : ℝ :=
  ∑ home_goals : Fin n, ∑ away_goals : Fin n,
    if ((home_goals : ℕ) + (away_goals : ℕ) : ℝ) ≤ t then
      M home_goals away_goals
    else 0

/-- over_prob = 1 - under_prob (line 262 of the source). -/
noncomputable def over_prob {n : ℕ} (M : Fin n → Fin n → ℝ) (t : ℝ) : ℝ :=
  1 - under_prob M t

/-- Fair odds: 1 / p if p > 0 else float('inf'); modelled in EReal so the
infinity is a value, not an error. -/
noncomputable def fair_odds (p : ℝ) : EReal :=
  if 0 < p then ((1 / p : ℝ) : EReal) else ⊤

/-- One entry of the results dict of _calculate_over_under_probabilities. -/
structure MarketResult where
  under_probability : ℝ
  over_probability : ℝ
  under_odds : EReal
  over_odds : EReal

/-- The per-threshold record built inside the threshold loop. -/
noncomputable def market_entry {n : ℕ} (M : Fin n → Fin n → ℝ) (t : ℝ) :
    MarketResult where
  under_probability := under_prob M t
  over_probability := over_prob M t
  under_odds := fair_odds (under_prob M t)
  over_odds := fair_odds (over_prob M t)

/-- _calculate_over_under_probabilities: one record per threshold, keyed by
the threshold, in the order of the thresholds list. -/
noncomputable def calculate_over_under_probabilities {n : ℕ}
    (M : Fin n → Fin n → ℝ) : List (ℝ × MarketResult) :=
  thresholds.map (fun t => (t, market_entry M t))

/-- _apply_margin: odds * (1 + margin_percent / 100). -/
noncomputable def apply_margin (odds : EReal) (margin_percent : ℝ) : EReal :=
  odds * ((1 + margin_percent / 100 : ℝ) : EReal)

/-- generate_market_analysis: guards on the attack strengths being truthy,
then runs goal expectancy, the default-size (8) scoreline matrix, and the
over/under market computation.  The DataFrame row formatting and the margin
columns are presentation of this list and are not modelled further. -/
noncomputable def generate_market_analysis (s : PoissonCalculator) :
    Except String (List (ℝ × MarketResult)) :=
  if !([s.home_attack_strength, s.away_attack_strength].all truthy) then
    Except.error "Strengths must be calculated before generating market analysis"
  else
    match calculate_goal_expectancy s with
    | Except.error e => Except.error e
    | Except.ok (he, ae) =>
      Except.ok (calculate_over_under_probabilities
        (generate_scoreline_probabilities (he : ℝ) (ae : ℝ) 8))

/-- C8: invoking generate_market_analysis on a freshly configured engine
(averages set, strengths never computed) fails with the precondition error
naming the missing strengths step, for every choice of averages; it never
returns a result list. -/
theorem c8_market_before_strengths_error
    (hf ha af aa L : ℚ) :
    generate_market_analysis (set_team_averages init_calculator hf ha af aa L) =
      Except.error "Strengths must be calculated before generating market analysis" :=
  rfl

/-- C4 (code behaviour at the failing input): with every average supplied and
home_avg_goals_for = 0, calculate_strengths raises the "must be set"
ValueError instead of succeeding with a zero strength; and a fully populated
StrengthVector containing a zero strength is likewise rejected by the goal
expectancy precondition check.  The truthiness guards conflate 0.0 with None. -/
theorem c4_zero_average_rejected :
    calculate_strengths (set_team_averages init_calculator 0 1 1 1 1) =
      Except.error "Team averages must be set before calculating strengths" ∧
    calculate_goal_expectancy
      { init_calculator with
        home_attack_strength := some 0
        home_defense_strength := some 1
        away_attack_strength := some 1
        away_defense_strength := some 1
        league_avg_goals := some 1 } =
      Except.error "Strengths must be calculated before goal expectancy" :=
  ⟨rfl, rfl⟩

/-- Evaluation of calculate_strengths after set_team_averages on a fresh
engine, when all five inputs are nonzero (hence truthy). -/
theorem strengths_simple_eval (hf ha af aa L : ℚ)
    (h1 : hf ≠ 0) (h2 : ha ≠ 0) (h3 : af ≠ 0) (h4 : aa ≠ 0) (h5 : L ≠ 0) :
    calculate_strengths (set_team_averages init_calculator hf ha af aa L) =
      Except.ok { set_team_averages init_calculator hf ha af aa L with
        home_attack_strength := some (hf / L)
        home_defense_strength := some (ha / L)
        away_attack_strength := some (af / L)
        away_defense_strength := some (aa / L) } := by
  simp [calculate_strengths, set_team_averages, init_calculator, truthy,
    h1, h2, h3, h4, h5]

/-- Evaluation of calculate_strengths after set_team_averages_detailed on a
fresh engine, when all six inputs are nonzero (hence truthy). -/
theorem strengths_detailed_eval (hf ha af aa lhf laf : ℚ)
    (h1 : hf ≠ 0) (h2 : ha ≠ 0) (h3 : af ≠ 0) (h4 : aa ≠ 0)
    (h5 : lhf ≠ 0) (h6 : laf ≠ 0) :
    calculate_strengths
        (set_team_averages_detailed init_calculator hf ha af aa lhf laf) =
      Except.ok
        { set_team_averages_detailed init_calculator hf ha af aa lhf laf with
          home_attack_strength := some (hf / lhf)
          home_defense_strength := some (ha / laf)
          away_attack_strength := some (af / laf)
          away_defense_strength := some (aa / lhf) } := by
  simp [calculate_strengths, set_team_averages_detailed, init_calculator,
    truthy, h1, h2, h3, h4, h5, h6]

/-- C2: each cell of the default-size scoreline matrix is the product of the
two Poisson probability masses, with PoissonPMF(k, lam) = lam^k e^(-lam)/k!,
for positive expectancies and indices in [0, 8]. -/
theorem c2_scoreline_cell_formula (lh la : ℝ) (h1 : 0 < lh) (h2 : 0 < la)
    (i j : Fin 9) :
    generate_scoreline_probabilities lh la 8 i j =
      (lh ^ (i : ℕ) * Real.exp (-lh) / (Nat.factorial (i : ℕ) : ℝ)) *
      (la ^ (j : ℕ) * Real.exp (-la) / (Nat.factorial (j : ℕ) : ℝ)) :=
  rfl

/-- Witness for C2 at expectancies 1, 1 and cell (0, 0). -/
theorem c2_scoreline_cell_formula_witness :
    (0 : ℝ) < 1 ∧
    generate_scoreline_probabilities 1 1 8 0 0 =
      ((1 : ℝ) ^ (((0 : Fin 9)) : ℕ) * Real.exp (-1) /
        (Nat.factorial (((0 : Fin 9)) : ℕ) : ℝ)) *
      ((1 : ℝ) ^ (((0 : Fin 9)) : ℕ) * Real.exp (-1) /
        (Nat.factorial (((0 : Fin 9)) : ℕ) : ℝ)) :=
  ⟨by norm_num, c2_scoreline_cell_formula 1 1 (by norm_num) (by norm_num) 0 0⟩

/-- C3: in detailed mode with every average positive, calculate_strengths
succeeds and produces exactly the four ratios home_goals_for /
league_home_scoring, home_goals_against / league_away_scoring,
away_goals_for / league_away_scoring, away_goals_against /
league_home_scoring. -/
theorem c3_detailed_strengths (hf ha af aa lhf laf : ℚ)
    (h1 : 0 < hf) (h2 : 0 < ha) (h3 : 0 < af) (h4 : 0 < aa)
    (h5 : 0 < lhf) (h6 : 0 < laf) :
    ∃ s2 : PoissonCalculator,
      calculate_strengths
          (set_team_averages_detailed init_calculator hf ha af aa lhf laf) =
        Except.ok s2 ∧
      s2.home_attack_strength = some (hf / lhf) ∧
      s2.home_defense_strength = some (ha / laf) ∧
      s2.away_attack_strength = some (af / laf) ∧
      s2.away_defense_strength = some (aa / lhf) :=
  ⟨_, strengths_detailed_eval hf ha af aa lhf laf
      h1.ne' h2.ne' h3.ne' h4.ne' h5.ne' h6.ne', rfl, rfl, rfl, rfl⟩

/-- Witness for C3 at averages (3, 2, 2, 1) and baselines (3, 2). -/
theorem c3_detailed_strengths_witness :
    (0 : ℚ) < 3 ∧
    ∃ s2 : PoissonCalculator,
      calculate_strengths
          (set_team_averages_detailed init_calculator 3 2 2 1 3 2) =
        Except.ok s2 ∧
      s2.home_attack_strength = some (3 / 3) ∧
      s2.home_defense_strength = some (2 / 2) ∧
      s2.away_attack_strength = some (2 / 2) ∧
      s2.away_defense_strength = some (1 / 3) :=
  ⟨by norm_num, c3_detailed_strengths 3 2 2 1 3 2 (by norm_num) (by norm_num)
    (by norm_num) (by norm_num) (by norm_num) (by norm_num)⟩

/-- C7: for positive games played on both sides, set_team_from_totals leaves
the engine in exactly the state set_team_averages reaches with the averages
scored/played and conceded/played, with no error; every downstream
computation therefore agrees, being a function of that state. -/
theorem c7_totals_equivalence (s : PoissonCalculator)
    (hg hs hc ag ags agc L : ℚ) (h1 : 0 < hg) (h2 : 0 < ag) :
    set_team_from_totals s hg hs hc ag ags agc L =
      (set_team_averages s (hs / hg) (hc / hg) (ags / ag) (agc / ag) L,
       none) := by
  simp [set_team_from_totals, set_team_averages, h1.ne', h2.ne']

/-- Witness for C7: totals (20 games, 38 scored, 19 conceded) on both sides
coincide with averages 1.90 and 0.95. -/
theorem c7_totals_equivalence_witness :
    (0 : ℚ) < 20 ∧
    set_team_from_totals init_calculator 20 38 19 20 38 19 2.7 =
      (set_team_averages init_calculator 1.9 0.95 1.9 0.95 2.7, none) := by
  refine ⟨by norm_num, ?_⟩
  rw [c7_totals_equivalence init_calculator 20 38 19 20 38 19 2.7
    (by norm_num) (by norm_num)]
  norm_num [set_team_averages]

/-- C10: with home_games positive and away_games = 0, both totals-based
configuration methods stop with ZeroDivisionError only after the two home
average fields have been overwritten with the new quotients, while every
other field (in particular both away averages) keeps its previous value. -/
theorem c10_totals_non_atomic (s : PoissonCalculator)
    (hg hs hc ags agc lhf laf L : ℚ) (h1 : 0 < hg) :
    set_team_from_totals s hg hs hc 0 ags agc L =
      ({ s with
          home_avg_goals_for := some (hs / hg)
          home_avg_goals_against := some (hc / hg) },
        some "ZeroDivisionError: division by zero") ∧
    set_team_from_totals_detailed s hg hs hc 0 ags agc lhf laf =
      ({ s with
          home_avg_goals_for := some (hs / hg)
          home_avg_goals_against := some (hc / hg) },
        some "ZeroDivisionError: division by zero") := by
  constructor
  · simp [set_team_from_totals, h1.ne']
  · simp [set_team_from_totals_detailed, h1.ne']

/-- Witness for C10 on a previously fully configured engine: home averages
become 38/20 and 19/20, away averages stay 2 and 3. -/
theorem c10_totals_non_atomic_witness :
    (0 : ℚ) < 20 ∧
    set_team_from_totals (set_team_averages init_calculator 1 1 2 3 1)
        20 38 19 0 7 7 2.7 =
      ({ set_team_averages init_calculator 1 1 2 3 1 with
          home_avg_goals_for := some (38 / 20)
          home_avg_goals_against := some (19 / 20) },
        some "ZeroDivisionError: division by zero") ∧
    set_team_from_totals_detailed (set_team_averages init_calculator 1 1 2 3 1)
        20 38 19 0 7 7 1.4 1.1 =
      ({ set_team_averages init_calculator 1 1 2 3 1 with
          home_avg_goals_for := some (38 / 20)
          home_avg_goals_against := some (19 / 20) },
        some "ZeroDivisionError: division by zero") :=
  ⟨by norm_num,
    c10_totals_non_atomic (set_team_averages init_calculator 1 1 2 3 1)
      20 38 19 7 7 1.4 1.1 2.7 (by norm_num)⟩

/-- C1: every record produced by the market computation on the scoreline
matrix of a positive-expectancy engine has under_probability equal to the
finite sum of the cells with home + away goals at most its threshold,
over_probability exactly 1 - under_probability, and the two summing to 1. -/
theorem c1_over_under_complementarity (lh la : ℝ) (h1 : 0 < lh) (h2 : 0 < la) :
    ∀ p ∈ calculate_over_under_probabilities
        (generate_scoreline_probabilities lh la 8),
      p.2.under_probability =
        (∑ i : Fin 9, ∑ j : Fin 9,
          if ((i : ℕ) + (j : ℕ) : ℝ) ≤ p.1 then
            generate_scoreline_probabilities lh la 8 i j
          else 0) ∧
      p.2.over_probability = 1 - p.2.under_probability ∧
      p.2.under_probability + p.2.over_probability = 1 := by
  intro p hp
  rw [calculate_over_under_probabilities] at hp
  simp only [List.mem_map] at hp
  obtain ⟨t, _ht, rfl⟩ := hp
  refine ⟨rfl, rfl, ?_⟩
  show under_prob (generate_scoreline_probabilities lh la 8) t +
    over_prob (generate_scoreline_probabilities lh la 8) t = 1
  rw [over_prob]
  ring

/-- Witness for C1 at expectancies 1, 1. -/
theorem c1_over_under_complementarity_witness :
    (0 : ℝ) < 1 ∧
    ∀ p ∈ calculate_over_under_probabilities
        (generate_scoreline_probabilities 1 1 8),
      p.2.under_probability =
        (∑ i : Fin 9, ∑ j : Fin 9,
          if ((i : ℕ) + (j : ℕ) : ℝ) ≤ p.1 then
            generate_scoreline_probabilities 1 1 8 i j
          else 0) ∧
      p.2.over_probability = 1 - p.2.under_probability ∧
      p.2.under_probability + p.2.over_probability = 1 :=
  ⟨by norm_num,
    c1_over_under_complementarity 1 1 (by norm_num) (by norm_num)⟩

/-- The Poisson probability mass is nonnegative for a nonnegative rate. -/
theorem poisson_pmf_nonneg (k : ℕ) (lam : ℝ) (h : 0 ≤ lam) :
    0 ≤ poisson_pmf k lam := by
  unfold poisson_pmf
  exact div_nonneg
    (mul_nonneg (pow_nonneg h k) (Real.exp_pos (-lam)).le)
    (Nat.cast_nonneg _)

/-- The under sum only gains cells as the threshold grows, for a matrix of
nonnegative cells. -/
theorem under_prob_mono {n : ℕ} (M : Fin n → Fin n → ℝ)
    (hM : ∀ i j, 0 ≤ M i j) {t1 t2 : ℝ} (h : t1 ≤ t2) :
    under_prob M t1 ≤ under_prob M t2 := by
  unfold under_prob
  refine Finset.sum_le_sum fun i _ => Finset.sum_le_sum fun j _ => ?_
  by_cases hc : ((i : ℕ) + (j : ℕ) : ℝ) ≤ t1
  · rw [if_pos hc, if_pos (hc.trans h)]
  · rw [if_neg hc]
    by_cases hc2 : ((i : ℕ) + (j : ℕ) : ℝ) ≤ t2
    · rw [if_pos hc2]
      exact hM i j
    · rw [if_neg hc2]

/-- Every cell of the scoreline matrix of nonnegative expectancies is
nonnegative. -/
theorem scoreline_cell_nonneg (lh la : ℝ) (h1 : 0 ≤ lh) (h2 : 0 ≤ la)
    (mg : ℕ) (i j : Fin (mg + 1)) :
    0 ≤ generate_scoreline_probabilities lh la mg i j :=
  mul_nonneg (poisson_pmf_nonneg _ _ h1) (poisson_pmf_nonneg _ _ h2)

/-- C6: for positive expectancies, the under-probabilities at the thresholds
taken in the order 0.5, 1.5, 2.5, 3.5 are non-decreasing. -/
theorem c6_under_prob_monotone (lh la : ℝ) (h1 : 0 < lh) (h2 : 0 < la) :
    under_prob (generate_scoreline_probabilities lh la 8) 0.5 ≤
      under_prob (generate_scoreline_probabilities lh la 8) 1.5 ∧
    under_prob (generate_scoreline_probabilities lh la 8) 1.5 ≤
      under_prob (generate_scoreline_probabilities lh la 8) 2.5 ∧
    under_prob (generate_scoreline_probabilities lh la 8) 2.5 ≤
      under_prob (generate_scoreline_probabilities lh la 8) 3.5 := by
  have hM : ∀ i j : Fin 9,
      0 ≤ generate_scoreline_probabilities lh la 8 i j :=
    fun i j => scoreline_cell_nonneg lh la h1.le h2.le 8 i j
  exact ⟨under_prob_mono _ hM (by norm_num),
    under_prob_mono _ hM (by norm_num),
    under_prob_mono _ hM (by norm_num)⟩

/-- Witness for C6 at expectancies 1, 1. -/
theorem c6_under_prob_monotone_witness :
    (0 : ℝ) < 1 ∧
    under_prob (generate_scoreline_probabilities 1 1 8) 0.5 ≤
      under_prob (generate_scoreline_probabilities 1 1 8) 1.5 ∧
    under_prob (generate_scoreline_probabilities 1 1 8) 1.5 ≤
      under_prob (generate_scoreline_probabilities 1 1 8) 2.5 ∧
    under_prob (generate_scoreline_probabilities 1 1 8) 2.5 ≤
      under_prob (generate_scoreline_probabilities 1 1 8) 3.5 :=
  ⟨by norm_num, c6_under_prob_monotone 1 1 (by norm_num) (by norm_num)⟩

/-- Full simple-mode pipeline evaluation: strengths then expectancies give
(hf/L * (aa/L) * L, af/L * (ha/L) * L) for nonzero inputs. -/
theorem expectancy_simple_eval (hf ha af aa L : ℚ)
    (h1 : hf ≠ 0) (h2 : ha ≠ 0) (h3 : af ≠ 0) (h4 : aa ≠ 0) (h5 : L ≠ 0) :
    expectancy_of (set_team_averages init_calculator hf ha af aa L) =
      Except.ok (hf / L * (aa / L) * L, af / L * (ha / L) * L) := by
  unfold expectancy_of
  rw [strengths_simple_eval hf ha af aa L h1 h2 h3 h4 h5]
  simp [calculate_goal_expectancy, set_team_averages, init_calculator, truthy,
    div_ne_zero h1 h5, div_ne_zero h2 h5, div_ne_zero h3 h5, div_ne_zero h4 h5]

/-- Full detailed-mode pipeline evaluation: strengths then expectancies give
(hf/lhf * (aa/lhf) * lhf, af/laf * (ha/laf) * laf) for nonzero inputs. -/
theorem expectancy_detailed_eval (hf ha af aa lhf laf : ℚ)
    (h1 : hf ≠ 0) (h2 : ha ≠ 0) (h3 : af ≠ 0) (h4 : aa ≠ 0)
    (h5 : lhf ≠ 0) (h6 : laf ≠ 0) :
    expectancy_of
        (set_team_averages_detailed init_calculator hf ha af aa lhf laf) =
      Except.ok (hf / lhf * (aa / lhf) * lhf, af / laf * (ha / laf) * laf) := by
  unfold expectancy_of
  rw [strengths_detailed_eval hf ha af aa lhf laf h1 h2 h3 h4 h5 h6]
  simp [calculate_goal_expectancy, set_team_averages_detailed, init_calculator,
    truthy, div_ne_zero h1 h5, div_ne_zero h2 h6, div_ne_zero h3 h6,
    div_ne_zero h4 h5]

/-- Swapping the two expectancies transposes the scoreline matrix and leaves
every under sum unchanged. -/
theorem under_prob_swap (lh la : ℝ) (mg : ℕ) (t : ℝ) :
    under_prob (generate_scoreline_probabilities la lh mg) t =
      under_prob (generate_scoreline_probabilities lh la mg) t := by
  unfold under_prob generate_scoreline_probabilities
  rw [Finset.sum_comm]
  refine Finset.sum_congr rfl fun i _ => Finset.sum_congr rfl fun j _ => ?_
  exact if_congr (by rw [add_comm]) (mul_comm _ _) rfl

/-- C5: swapping the two teams' averages (and, in detailed mode, the two
league baselines) swaps the home and away expectancies exactly, keeps the
total expected goals, and keeps every threshold's under and over
probabilities. -/
theorem c5_home_away_symmetry (hf ha af aa L lhf laf : ℚ)
    (h1 : 0 < hf) (h2 : 0 < ha) (h3 : 0 < af) (h4 : 0 < aa)
    (h5 : 0 < L) (h6 : 0 < lhf) (h7 : 0 < laf) :
    (∃ he ae : ℚ,
      expectancy_of (set_team_averages init_calculator hf ha af aa L) =
        Except.ok (he, ae) ∧
      expectancy_of (set_team_averages init_calculator af aa hf ha L) =
        Except.ok (ae, he) ∧
      ae + he = he + ae ∧
      ∀ t : ℝ,
        under_prob (generate_scoreline_probabilities (ae : ℝ) (he : ℝ) 8) t =
          under_prob (generate_scoreline_probabilities (he : ℝ) (ae : ℝ) 8) t ∧
        over_prob (generate_scoreline_probabilities (ae : ℝ) (he : ℝ) 8) t =
          over_prob (generate_scoreline_probabilities (he : ℝ) (ae : ℝ) 8) t) ∧
    (∃ he ae : ℚ,
      expectancy_of
          (set_team_averages_detailed init_calculator hf ha af aa lhf laf) =
        Except.ok (he, ae) ∧
      expectancy_of
          (set_team_averages_detailed init_calculator af aa hf ha laf lhf) =
        Except.ok (ae, he) ∧
      ae + he = he + ae ∧
      ∀ t : ℝ,
        under_prob (generate_scoreline_probabilities (ae : ℝ) (he : ℝ) 8) t =
          under_prob (generate_scoreline_probabilities (he : ℝ) (ae : ℝ) 8) t ∧
        over_prob (generate_scoreline_probabilities (ae : ℝ) (he : ℝ) 8) t =
          over_prob (generate_scoreline_probabilities (he : ℝ) (ae : ℝ) 8) t) := by
  constructor
  · refine ⟨hf / L * (aa / L) * L, af / L * (ha / L) * L,
      expectancy_simple_eval hf ha af aa L h1.ne' h2.ne' h3.ne' h4.ne' h5.ne',
      expectancy_simple_eval af aa hf ha L h3.ne' h4.ne' h1.ne' h2.ne' h5.ne',
      by ring, fun t => ⟨under_prob_swap _ _ 8 t, ?_⟩⟩
    rw [over_prob, over_prob, under_prob_swap]
  · refine ⟨hf / lhf * (aa / lhf) * lhf, af / laf * (ha / laf) * laf,
      expectancy_detailed_eval hf ha af aa lhf laf
        h1.ne' h2.ne' h3.ne' h4.ne' h6.ne' h7.ne',
      expectancy_detailed_eval af aa hf ha laf lhf
        h3.ne' h4.ne' h1.ne' h2.ne' h7.ne' h6.ne',
      by ring, fun t => ⟨under_prob_swap _ _ 8 t, ?_⟩⟩
    rw [over_prob, over_prob, under_prob_swap]

/-- At threshold 0.5 the under sum keeps only the 0-0 cell: every other cell
has at least one goal in total. -/
theorem under_prob_half {n : ℕ} (M : Fin (n + 1) → Fin (n + 1) → ℝ) :
    under_prob M 0.5 = M 0 0 := by
  unfold under_prob
  have key : ∀ i j : Fin (n + 1),
      (if ((i : ℕ) + (j : ℕ) : ℝ) ≤ 0.5 then M i j else 0) =
        if i = 0 then (if j = 0 then M i j else 0) else 0 := by
    intro i j
    by_cases hi : i = 0
    · by_cases hj : j = 0
      · subst hi; subst hj
        norm_num [Fin.val_zero]
      · have hj1 : 1 ≤ (j : ℕ) :=
          Nat.one_le_iff_ne_zero.mpr (by simpa [Fin.ext_iff] using hj)
        have hcond : ¬((i : ℕ) + (j : ℕ) : ℝ) ≤ 0.5 := by
          have hcast : (1 : ℝ) ≤ ((i : ℕ) : ℝ) + ((j : ℕ) : ℝ) := by
            have : 1 ≤ (i : ℕ) + (j : ℕ) := by omega
            exact_mod_cast this
          linarith
        rw [if_neg hcond, if_pos hi, if_neg hj]
    · have hi1 : 1 ≤ (i : ℕ) :=
        Nat.one_le_iff_ne_zero.mpr (by simpa [Fin.ext_iff] using hi)
      have hcond : ¬((i : ℕ) + (j : ℕ) : ℝ) ≤ 0.5 := by
        have hcast : (1 : ℝ) ≤ ((i : ℕ) : ℝ) + ((j : ℕ) : ℝ) := by
          have : 1 ≤ (i : ℕ) + (j : ℕ) := by omega
          exact_mod_cast this
        linarith
      rw [if_neg hcond, if_neg hi]
  calc (∑ i : Fin (n + 1), ∑ j : Fin (n + 1),
          if ((i : ℕ) + (j : ℕ) : ℝ) ≤ 0.5 then M i j else 0)
      = ∑ i : Fin (n + 1), ∑ j : Fin (n + 1),
          (if i = 0 then (if j = 0 then M i j else 0) else 0) :=
        Finset.sum_congr rfl fun i _ => Finset.sum_congr rfl fun j _ => key i j
    _ = M 0 0 := by simp

/-- The 0-0 cell of the default scoreline matrix at expectancies 10, 10. -/
theorem scoreline_ten_ten_zero_cell :
    generate_scoreline_probabilities 10 10 8 0 0 =
      Real.exp (-10) * Real.exp (-10) := by
  simp [generate_scoreline_probabilities, poisson_pmf]

/-- exp (-10) is at most 1/1024. -/
theorem exp_neg_ten_le : Real.exp (-10) ≤ 1 / 1024 := by
  have h2 : (2 : ℝ) < Real.exp 1 := by
    have h := Real.exp_one_gt_d9
    linarith
  have h10 : (1024 : ℝ) ≤ Real.exp 10 := by
    have hpow : (2 : ℝ) ^ (10 : ℕ) ≤ Real.exp 1 ^ (10 : ℕ) :=
      pow_le_pow_left₀ (by norm_num) h2.le 10
    have hexp : Real.exp 1 ^ (10 : ℕ) = Real.exp 10 := by
      rw [← Real.exp_nat_mul]
      norm_num
    calc (1024 : ℝ) = 2 ^ (10 : ℕ) := by norm_num
      _ ≤ Real.exp 1 ^ (10 : ℕ) := hpow
      _ = Real.exp 10 := hexp
  rw [Real.exp_neg]
  calc (Real.exp 10)⁻¹ ≤ (1024 : ℝ)⁻¹ :=
        inv_anti₀ (by norm_num) h10
    _ = 1 / 1024 := by norm_num

/-- C9 counterexample: at expectancies 10 and 10 the Under 0.5 probability is
positive yet formats as 0.00% (its percentage is below 0.005), and the fair
odds the code produces for it are NOT the infinite sentinel: the claim that a
probability which merely rounds to 0.00% reports infinite odds is false. -/
theorem c9_rounds_to_zero_counterexample :
    0 < under_prob (generate_scoreline_probabilities 10 10 8) 0.5 ∧
    under_prob (generate_scoreline_probabilities 10 10 8) 0.5 * 100 < 0.005 ∧
    fair_odds (under_prob (generate_scoreline_probabilities 10 10 8) 0.5) ≠
      ⊤ := by
  have hval : under_prob (generate_scoreline_probabilities 10 10 8) 0.5 =
      Real.exp (-10) * Real.exp (-10) := by
    rw [under_prob_half, scoreline_ten_ten_zero_cell]
  have hpos : (0 : ℝ) < Real.exp (-10) * Real.exp (-10) :=
    mul_pos (Real.exp_pos _) (Real.exp_pos _)
  have hsmall : Real.exp (-10) * Real.exp (-10) * 100 < 0.005 := by
    have he := exp_neg_ten_le
    have hp := Real.exp_pos (-10)
    nlinarith
  refine ⟨?_, ?_, ?_⟩
  · rw [hval]
    exact hpos
  · rw [hval]
    exact hsmall
  · rw [hval, fair_odds, if_pos hpos]
    exact EReal.coe_ne_top _

/-- C9 amended: the fair under odds are 1/p (a finite EReal) whenever the
under probability p is positive, however small (in particular when it merely
rounds to 0.00%), and are the infinite sentinel exactly when p is not
positive; no division error occurs in either case. -/
theorem c9_fair_odds_amended {n : ℕ} (M : Fin n → Fin n → ℝ) (t : ℝ) :
    (0 < under_prob M t →
      (market_entry M t).under_odds = ((1 / under_prob M t : ℝ) : EReal) ∧
      (market_entry M t).under_odds ≠ ⊤) ∧
    (under_prob M t ≤ 0 → (market_entry M t).under_odds = ⊤) := by
  constructor
  · intro h
    constructor
    · show fair_odds (under_prob M t) = _
      rw [fair_odds, if_pos h]
    · show fair_odds (under_prob M t) ≠ ⊤
      rw [fair_odds, if_pos h]
      exact EReal.coe_ne_top _
  · intro h
    show fair_odds (under_prob M t) = ⊤
    rw [fair_odds, if_neg (not_lt.mpr h)]

/-- Witness for the amended C9, on the expectancy-1 matrix at threshold 0.5
(positive probability, finite odds) and on the all-zero matrix (probability
0, infinite odds). -/
theorem c9_fair_odds_amended_witness :
    0 < under_prob (generate_scoreline_probabilities 1 1 8) 0.5 ∧
    (market_entry (generate_scoreline_probabilities 1 1 8) 0.5).under_odds =
      ((1 / under_prob (generate_scoreline_probabilities 1 1 8) 0.5 : ℝ) :
        EReal) ∧
    (market_entry (generate_scoreline_probabilities 1 1 8) 0.5).under_odds ≠
      ⊤ ∧
    (market_entry (fun _ _ : Fin 9 => (0 : ℝ)) 0.5).under_odds = ⊤ := by
  have hcell : generate_scoreline_probabilities 1 1 8 0 0 =
      Real.exp (-1) * Real.exp (-1) := by
    simp [generate_scoreline_probabilities, poisson_pmf]
  have hpos : 0 < under_prob (generate_scoreline_probabilities 1 1 8) 0.5 := by
    rw [under_prob_half, hcell]
    exact mul_pos (Real.exp_pos _) (Real.exp_pos _)
  have hzero : under_prob (fun _ _ : Fin 9 => (0 : ℝ)) 0.5 ≤ 0 := by
    rw [under_prob_half]
  obtain ⟨h1, h2⟩ :=
    (c9_fair_odds_amended (generate_scoreline_probabilities 1 1 8) 0.5).1 hpos
  exact ⟨hpos, h1, h2,
    (c9_fair_odds_amended (fun _ _ : Fin 9 => (0 : ℝ)) 0.5).2 hzero⟩

/-- Witness for C5 with every average and baseline equal to 1. -/
theorem c5_home_away_symmetry_witness :
    (0 : ℚ) < 1 ∧
    ((∃ he ae : ℚ,
      expectancy_of (set_team_averages init_calculator 1 1 1 1 1) =
        Except.ok (he, ae) ∧
      expectancy_of (set_team_averages init_calculator 1 1 1 1 1) =
        Except.ok (ae, he) ∧
      ae + he = he + ae ∧
      ∀ t : ℝ,
        under_prob (generate_scoreline_probabilities (ae : ℝ) (he : ℝ) 8) t =
          under_prob (generate_scoreline_probabilities (he : ℝ) (ae : ℝ) 8) t ∧
        over_prob (generate_scoreline_probabilities (ae : ℝ) (he : ℝ) 8) t =
          over_prob (generate_scoreline_probabilities (he : ℝ) (ae : ℝ) 8) t) ∧
    (∃ he ae : ℚ,
      expectancy_of
          (set_team_averages_detailed init_calculator 1 1 1 1 1 1) =
        Except.ok (he, ae) ∧
      expectancy_of
          (set_team_averages_detailed init_calculator 1 1 1 1 1 1) =
        Except.ok (ae, he) ∧
      ae + he = he + ae ∧
      ∀ t : ℝ,
        under_prob (generate_scoreline_probabilities (ae : ℝ) (he : ℝ) 8) t =
          under_prob (generate_scoreline_probabilities (he : ℝ) (ae : ℝ) 8) t ∧
        over_prob (generate_scoreline_probabilities (ae : ℝ) (he : ℝ) 8) t =
          over_prob (generate_scoreline_probabilities (he : ℝ) (ae : ℝ) 8) t)) :=
  ⟨by norm_num,
    c5_home_away_symmetry 1 1 1 1 1 1 1 (by norm_num) (by norm_num)
      (by norm_num) (by norm_num) (by norm_num) (by norm_num) (by norm_num)⟩
